import Mathlib

/-!
Shallow embedding of the food-data normalization, caching and retrieval layer
of the Tiles repository, together with theorems settling the specification
claims about it.

Numbers carried by nutrient records are embedded as rationals; JavaScript
truthiness on strings and numbers is made explicit (the empty string and the
number 0 are the falsy values that occur here). Timestamps are integers in
milliseconds. Remote calls and store lookups are modelled by passing their
outcomes in explicitly, so every service operation is a pure function of its
environment.
-/

/-- JavaScript string disjunction: a possibly-absent string falls back to the
default when it is undefined or empty (both are falsy). -/
def jsOrS (o : Option String) (d : String) : String :=
  match o with
  | some s => if s = "" then d else s
  | none => d

/-- JavaScript numeric disjunction: a possibly-absent number falls back to the
default when it is undefined or 0 (both are falsy). -/
def jsOrQ (o : Option ℚ) (d : ℚ) : ℚ :=
  match o with
  | some v => if v = 0 then d else v
  | none => d

/-- JavaScript Math.round on an exact rational: floor of x + 1/2. -/
def jsRound (q : ℚ) : ℤ :=
  ⌊q + 1 / 2⌋

/-- Rounding to 2 decimal places as written in the source:
Math.round(val * 100) / 100. -/
def round2 (q : ℚ) : ℚ :=
  ((jsRound (q * 100) : ℚ)) / 100

/-- Parses a leading run of decimal digits; none when there is no digit
(JavaScript parseInt would yield NaN). -/
def parseDigits (cs : List Char) : Option Nat :=
  let ds := cs.takeWhile Char.isDigit
  if ds.isEmpty then none
  else some (ds.foldl (fun acc c => acc * 10 + (c.toNat - 48)) 0)

/-- JavaScript parseInt restricted to base 10: skip leading whitespace, accept
an optional sign, then read decimal digits; none models NaN. -/
def jsParseInt (s : String) : Option Int :=
  let cs := s.toList.dropWhile Char.isWhitespace
  match cs with
  | [] => none
  | c :: rest =>
    if c = Char.ofNat 45 then (parseDigits rest).map (fun n => -(n : Int))
    else if c = Char.ofNat 43 then (parseDigits rest).map (fun n => (n : Int))
    else (parseDigits cs).map (fun n => (n : Int))

/-- JavaScript String.prototype.trim modelled structurally: drop whitespace
characters from both ends. -/
def jsTrim (s : String) : String :=
  String.mk
    (((s.toList.dropWhile Char.isWhitespace).reverse.dropWhile
        Char.isWhitespace).reverse)

/-- Nested nutrient object of the detail-variant upstream shape (and of the
compatibility object built by the tiles row normalizer). The id is an Option
because the tiles mapping fills it with a parseInt result that can be NaN. -/
structure NutrientInfo where
  id : Option Int := none
  number : Option String := none
  name : Option String := none
  rank : Int := 0
  unitName : Option String := none
deriving DecidableEq

/-- One nutrient entry of an upstream food record. Either the flat fields
(nutrientId, nutrientName, unitName, value) or the nested object plus amount
may be populated; both shapes are checked by the resolver. -/
structure FoodNutrient where
  id : Option Int := none
  nutrientId : Option Int := none
  nutrientNumber : Option String := none
  nutrientName : Option String := none
  unitName : Option String := none
  value : Option ℚ := none
  amount : Option ℚ := none
  nutrient : Option NutrientInfo := none
deriving DecidableEq

/-- Measurement unit object nested in a portion record. -/
structure MeasureUnit where
  id : Option Int := none
  name : Option String := none
deriving DecidableEq

/-- One raw portion entry of the detail-variant upstream shape. -/
structure FoodPortion where
  id : Int := 0
  amount : ℚ := 0
  gramWeight : ℚ := 0
  portionDescription : Option String := none
  modifier : Option String := none
  measureUnit : Option MeasureUnit := none
deriving DecidableEq

/-- Upstream food category object. -/
structure FoodCategory where
  description : Option String := none
  code : Option String := none
deriving DecidableEq

/-- Detail-variant upstream food record (FDCFoodItem in the source types). -/
structure FDCFoodItem where
  fdcId : Int := 0
  description : String := ""
  dataType : String := ""
  publicationDate : String := ""
  foodCategory : Option FoodCategory := none
  foodNutrients : List FoodNutrient := []
  foodPortions : Option (List FoodPortion) := none
deriving DecidableEq

/-- Normalized portion entry. -/
structure NormalizedFoodPortion where
  id : Int
  amount : ℚ
  gramWeight : ℚ
  unitDescription : String
deriving DecidableEq

/-- Canonical normalized food entity produced by both normalization entry
points. -/
structure NormalizedFood where
  fdcId : Int
  description : String
  dataType : String
  publicationDate : String
  energy_kcal : ℚ
  protein_g : ℚ
  fat_g : ℚ
  carbs_g : ℚ
  sugar_g : ℚ
  fiber_g : ℚ
  sodium_mg : ℚ
  visual_parent : String
  category : String
  category_code : String
  portions : List NormalizedFoodPortion
  foodNutrients : List FoodNutrient
deriving DecidableEq

namespace NUTRIENT_IDS

def ENERGY_KCAL : Int := 1008

def ENERGY_ATWATER_GENERAL : Int := 2047

def ENERGY_ATWATER_SPECIFIC : Int := 2048

def PROTEIN : Int := 1003

def TOTAL_LIPID_FAT : Int := 1004

def CARBOHYDRATE_BY_DIFF : Int := 1005

def FIBER_TOTAL_DIETARY : Int := 1079

def SUGARS_TOTAL : Int := 2000

def SODIUM : Int := 1093

end NUTRIENT_IDS

/-- The possibleIds parameter of getValue: a single id or an ordered priority
list (number | number[] in the source). -/
inductive PossibleIds where
  | num (n : Int)
  | arr (l : List Int)

/-- Array.isArray(possibleIds) ? possibleIds : [possibleIds]. -/
def PossibleIds.toList : PossibleIds → List Int
  | .num n => [n]
  | .arr l => l

/-- Structural match used by the resolver: flat nutrientId first, then the
nested nutrient object's id. -/
def nutrientMatches (targetId : Int) (n : FoodNutrient) : Bool :=
  if n.nutrientId = some targetId then true
  else
    match n.nutrient with
    | some m => m.id = some targetId
    | none => false

/-- Scan of the record's nutrient list for the first entry matching a
candidate id. -/
def findNutrient (l : List FoodNutrient) (targetId : Int) : Option FoodNutrient :=
  l.find? (nutrientMatches targetId)

/-- Quantity extraction from a matched entry: the amount field when it is a
number, otherwise the value field. -/
def nutrientRawVal (n : FoodNutrient) : Option ℚ :=
  match n.amount with
  | some a => some a
  | none => n.value

/-- The value the resolver returns for a matched entry: val truthy gives the
2-decimal rounding of val, otherwise 0 (undefined and 0 are falsy). -/
def matchedValue (n : FoodNutrient) : ℚ :=
  match nutrientRawVal n with
  | some v => if v = 0 then 0 else round2 v
  | none => 0

/-- Core loop of getValue: walk the priority list of candidate ids; the first
candidate with any matching entry wins; 0 when no candidate matches. -/
def getValueList (l : List FoodNutrient) : List Int → ℚ
  | [] => 0
  | targetId :: rest =>
    match findNutrient l targetId with
    | some n => matchedValue n
    | none => getValueList l rest

/-- The nutrient resolver of the normalizer (getValue in the source). -/
def getValue (food : FDCFoodItem) (possibleIds : PossibleIds) : ℚ :=
  getValueList food.foodNutrients possibleIds.toList

/-- Visual-parent derivation: first comma-separated segment of the
description, trimmed and lowercased; the literal token for a falsy
description. -/
def generateVisualParent (description : String) : String :=
  if description = "" then "food"
  else ((jsTrim ((description.splitOn ",").headD description)).toLower)

/-- Portion normalization (the variant cited by the claims): unit description
resolves portionDescription, then modifier, then the nested measure unit
name, then the literal fallback label. -/
def normalizeFoodPortion (p : FoodPortion) : NormalizedFoodPortion :=
  { id := p.id
    amount := p.amount
    gramWeight := p.gramWeight
    unitDescription :=
      jsOrS p.portionDescription
        (jsOrS p.modifier
          (jsOrS (p.measureUnit.bind MeasureUnit.name) "Einheit")) }

/-- Detail-variant normalization entry point (normalizeFoodItem in the
source). -/
def normalizeFoodItem (food : FDCFoodItem) : NormalizedFood :=
  { fdcId := food.fdcId
    description := food.description
    dataType := food.dataType
    publicationDate := food.publicationDate
    energy_kcal :=
      getValue food
        (.arr [NUTRIENT_IDS.ENERGY_KCAL, NUTRIENT_IDS.ENERGY_ATWATER_SPECIFIC,
          NUTRIENT_IDS.ENERGY_ATWATER_GENERAL])
    protein_g := getValue food (.num NUTRIENT_IDS.PROTEIN)
    fat_g := getValue food (.num NUTRIENT_IDS.TOTAL_LIPID_FAT)
    carbs_g := getValue food (.num NUTRIENT_IDS.CARBOHYDRATE_BY_DIFF)
    sugar_g := getValue food (.num NUTRIENT_IDS.SUGARS_TOTAL)
    fiber_g := getValue food (.num NUTRIENT_IDS.FIBER_TOTAL_DIETARY)
    sodium_mg := getValue food (.num NUTRIENT_IDS.SODIUM)
    visual_parent := generateVisualParent food.description
    category := jsOrS (food.foodCategory.bind FoodCategory.description) "Unknown"
    category_code := jsOrS (food.foodCategory.bind FoodCategory.code) ""
    portions := (food.foodPortions.getD []).map normalizeFoodPortion
    foodNutrients := food.foodNutrients }

/-- One nutrient entry of the tiles search-index detail row (numeric
identifiers carried as strings in nutrientNumber). -/
structure TilesNutrient where
  nutrientNumber : Option String := none
  nutrientName : Option String := none
  unitName : Option String := none
  amount : Option ℚ := none
deriving DecidableEq

/-- One portion entry of the tiles search-index detail row. -/
structure TilesPortion where
  portionId : Option Int := none
  amount : Option ℚ := none
  gramWeight : Option ℚ := none
  portionDescription : Option String := none
  measureUnitName : Option String := none
  modifier : Option String := none
deriving DecidableEq

/-- Raw row returned by the tiles detail RPC. -/
structure TilesFoodDetailsRow where
  primary_label : Option String := none
  canonical_name : Option String := none
  nutrients : Option (List TilesNutrient) := none
  portions : Option (List TilesPortion) := none
  default_fdc_id : Int := 0
  usda_data_type : Option String := none
  default_dataset : Option String := none
  food_category : Option String := none
deriving DecidableEq

/-- Identifier carried by a mapped tiles nutrient: parseInt of the string
nutrient number when it is truthy, 0 otherwise; none models NaN. -/
def tilesNutrientId (n : TilesNutrient) : Option Int :=
  match n.nutrientNumber with
  | some s => if s = "" then some 0 else jsParseInt s
  | none => some 0

/-- Per-entry mapping from the tiles nutrient shape to the application
nutrient shape, populating both the flat fields and the nested object. -/
def mapTilesNutrient (n : TilesNutrient) : FoodNutrient :=
  { id := some 0
    nutrientId := tilesNutrientId n
    nutrientNumber := n.nutrientNumber
    nutrientName := n.nutrientName
    unitName := n.unitName
    value := n.amount
    amount := n.amount
    nutrient := some
      { id := tilesNutrientId n
        number := n.nutrientNumber
        name := n.nutrientName
        rank := 0
        unitName := n.unitName } }

/-- Explicit translation table from detail-variant nutrient ids to the
search-index nutrient number strings. -/
def mapIdToNumber (num : Int) : Option String :=
  if num = 1008 then some "208"
  else if num = 1003 then some "203"
  else if num = 1004 then some "204"
  else if num = 1005 then some "205"
  else if num = 2000 then some "269"
  else if num = 1079 then some "291"
  else if num = 1093 then some "307"
  else if num = 2047 then some "957"
  else if num = 2048 then some "958"
  else none

/-- Secondary lookup of getVal: direct match on the parsed numeric
identifier. -/
def getValById (foodNutrients : List FoodNutrient) (num : Int) : ℚ :=
  match foodNutrients.find? (fun n => n.nutrientId = some num) with
  | some found => jsOrQ found.amount 0
  | none => 0

/-- Value lookup of the tiles row normalizer (getVal in the source):
translated nutrient-number match first, then the direct-identifier
fallback. -/
def getVal (foodNutrients : List FoodNutrient) (num : Int) : ℚ :=
  match mapIdToNumber num with
  | some targetNum =>
    match foodNutrients.find? (fun n => n.nutrientNumber = some targetNum) with
    | some found => jsOrQ found.amount 0
    | none => getValById foodNutrients num
  | none => getValById foodNutrients num

/-- Portion mapping of the tiles row normalizer. -/
def mapTilesPortion (p : TilesPortion) : NormalizedFoodPortion :=
  { id := (p.portionId.getD 0)
    amount := jsOrQ p.amount 0
    gramWeight := jsOrQ p.gramWeight 0
    unitDescription :=
      jsOrS p.portionDescription
        (jsOrS p.measureUnitName (jsOrS p.modifier "portion")) }

/-- Energy resolution of the tiles row normalizer: Atwater specific first,
then Atwater general, then the standard kilocalorie entry, each taken only
when the previous one was falsy. -/
def tilesEnergy (foodNutrients : List FoodNutrient) : ℚ :=
  let e1 := getVal foodNutrients NUTRIENT_IDS.ENERGY_ATWATER_SPECIFIC
  if e1 = 0 then
    let e2 := getVal foodNutrients NUTRIENT_IDS.ENERGY_ATWATER_GENERAL
    if e2 = 0 then getVal foodNutrients NUTRIENT_IDS.ENERGY_KCAL
    else e2
  else e1

/-- Search-index-variant normalization entry point
(normalizeTilesFoodDetailsRow in the source). -/
def normalizeTilesFoodDetailsRow (row : TilesFoodDetailsRow) : NormalizedFood :=
  let description := jsOrS row.primary_label (jsOrS row.canonical_name "Unknown Food")
  let foodNutrients := (row.nutrients.getD []).map mapTilesNutrient
  { fdcId := row.default_fdc_id
    description := description
    dataType := jsOrS row.usda_data_type (jsOrS row.default_dataset "TilesDB")
    publicationDate := ""
    energy_kcal := tilesEnergy foodNutrients
    protein_g := getVal foodNutrients NUTRIENT_IDS.PROTEIN
    fat_g := getVal foodNutrients NUTRIENT_IDS.TOTAL_LIPID_FAT
    carbs_g := getVal foodNutrients NUTRIENT_IDS.CARBOHYDRATE_BY_DIFF
    sugar_g := getVal foodNutrients NUTRIENT_IDS.SUGARS_TOTAL
    fiber_g := getVal foodNutrients NUTRIENT_IDS.FIBER_TOTAL_DIETARY
    sodium_mg := getVal foodNutrients NUTRIENT_IDS.SODIUM
    visual_parent := jsOrS row.canonical_name (generateVisualParent description)
    category := jsOrS row.food_category ""
    category_code := ""
    portions := (row.portions.getD []).map mapTilesPortion
    foodNutrients := foodNutrients }

/-- One row returned by the tiles search RPC (snake_case database columns,
passed through untyped in the source). -/
structure TilesSearchRow where
  food_id : String := ""
  canonical_key : String := ""
  canonical_name : String := ""
  visual_group_key : Option String := none
  visual_parent_id : Option String := none
  default_fdc_id : Option Int := none
  default_dataset : Option String := none
  tags : List String := []
  lang_code : String := ""
  primary_label : Option String := none
  synonyms : List String := []
  score : ℚ := 0
  food_category : Option String := none
  usda_data_type : Option String := none
deriving DecidableEq

/-- Application-facing camelCase search result shape. -/
structure TilesFoodSearchResult where
  foodId : String
  canonicalKey : String
  canonicalName : String
  visualGroupKey : Option String
  visualParentId : Option String
  defaultFdcId : Option Int
  defaultDataset : Option String
  tags : List String
  langCode : String
  primaryLabel : Option String
  synonyms : List String
  score : ℚ
  foodCategory : Option String
  usdaDataType : Option String
deriving DecidableEq

/-- Field renaming applied to each row of a successful tiles search. -/
def mapTilesSearchRow (item : TilesSearchRow) : TilesFoodSearchResult :=
  { foodId := item.food_id
    canonicalKey := item.canonical_key
    canonicalName := item.canonical_name
    visualGroupKey := item.visual_group_key
    visualParentId := item.visual_parent_id
    defaultFdcId := item.default_fdc_id
    defaultDataset := item.default_dataset
    tags := item.tags
    langCode := item.lang_code
    primaryLabel := item.primary_label
    synonyms := item.synonyms
    score := item.score
    foodCategory := item.food_category
    usdaDataType := item.usda_data_type }

/-- Outcome of a database RPC invocation: an error object, or a payload that
may be null. -/
inductive RpcOutcome (α : Type) where
  | failure (msg : String)
  | success (data : Option α)

/-- The tiles search operation (searchTilesFood in the source), as a function
of the query and the RPC outcome. The second component records whether the
remote call was made. -/
def searchTilesFood (langCode : String) (query : String) (limit : Int)
    (rpc : RpcOutcome (List TilesSearchRow)) :
    Except String (List TilesFoodSearchResult) × Bool :=
  if query = "" ∨ jsTrim query = "" then (.ok [], false)
  else
    match rpc with
    | .failure msg => (.error ("Tiles Search Error: " ++ msg), true)
    | .success none => (.ok [], true)
    | .success (some rows) => (.ok (rows.map mapTilesSearchRow), true)

/-- Cache validity window in days (CACHE_TTL_DAYS in the source). -/
def CACHE_TTL_DAYS : Int := 30

/-- Cache freshness check (isCacheValid in the source): absolute elapsed
milliseconds between capture and now, converted to days with Math.ceil, must
not exceed the 30-day window. -/
def isCacheValid (nowMs fetchedAtMs : Int) : Bool :=
  let diffTime : ℚ := ((nowMs - fetchedAtMs).natAbs : ℚ)
  let diffDays : Int := ⌈diffTime / ((1000 * 60 * 60 * 24 : Int) : ℚ)⌉
  decide (diffDays ≤ CACHE_TTL_DAYS)

/-- Proxy response envelope parsed from the edge function body: success flag,
upstream status, possibly-null payload and possibly-null error message. -/
structure ProxyRes (α : Type) where
  success : Bool := false
  status : Int := -1
  payload : Option α := none
  errMsg : Option String := none

/-- Outcome of one supabase.functions.invoke call: the parsed response when
the transport succeeded (possibly null), or an invocation error message. -/
structure Invoke (α : Type) where
  data : Option (ProxyRes α) := none
  invokeError : Option String := none

/-- Loop body of the retry wrapper. Arguments: the operation (returning its
result and how many provider calls it made), the current 0-based attempt
index, the number of attempts remaining, and the last error seen. Returns
the overall result, the list of attempt numbers passed to the onRetry
callback, and the total number of provider calls. -/
def withRetryAux {E T : Type} (op : Nat → Except E T × Nat) :
    Nat → Nat → E → Except E T × List Nat × Nat
  | _, 0, last => (.error last, [], 0)
  | i, 1, _ =>
    match (op i).1 with
    | .ok v => (.ok v, [], (op i).2)
    | .error e => (.error e, [], (op i).2)
  | i, r + 2, _ =>
    match (op i).1 with
    | .ok v => (.ok v, [], (op i).2)
    | .error e =>
      let rest := withRetryAux op (i + 1) (r + 1) e
      (rest.1, (i + 1) :: rest.2.1, (op i).2 + rest.2.2)

/-- Generic retry wrapper (withRetry in the source): up to retries attempts;
on an error that is not the last attempt, the onRetry callback receives the
1-based attempt number; exhausting attempts surfaces the last error. -/
def withRetry {E T : Type} (op : Nat → Except E T × Nat) (retries : Nat)
    (initialLast : E) : Except E T × List Nat × Nat :=
  withRetryAux op 0 retries initialLast

/-- One search attempt (body of the closure searchFoods passes to withRetry):
a transport error throws its message, a null or unsuccessful envelope throws
the envelope error or a status message, success returns the payload as is. -/
def searchAttempt {α : Type} (v : Invoke α) : Except String (Option α) :=
  match v.invokeError with
  | some msg => .error (jsOrS (some msg) "Failed to contact search proxy")
  | none =>
    match v.data with
    | none => .error "USDA Search Error: Status undefined"
    | some r =>
      if r.success then .ok r.payload
      else .error (jsOrS r.errMsg ("USDA Search Error: Status " ++ toString r.status))

/-- The search operation (searchFoods in the source): the single search
request wrapped in the retry loop with 3 attempts; each attempt makes
exactly one provider call. Returns the result, the onRetry attempt numbers
and the total provider-call count. -/
def searchFoods {α : Type} (attempts : Nat → Invoke α) :
    Except String (Option α) × List Nat × Nat :=
  withRetry (fun i => (searchAttempt (attempts i), 1)) 3 "undefined"

/-- The pair of provider invocations available to one detail attempt:
the optimized (reduced-nutrient) request and the fallback (full) request. -/
structure DetailInvokes where
  optimized : Invoke FDCFoodItem
  fallback : Invoke FDCFoodItem

/-- Result of the optimized fetch inside one detail attempt: some payload on
a fully successful invocation, none when any of its checks threw (the error
is swallowed to trigger the fallback). -/
def optimizedFetched (v : Invoke FDCFoodItem) : Option FDCFoodItem :=
  if v.invokeError.isSome then none
  else
    match v.data with
    | none => none
    | some r => if r.success then r.payload else none

/-- Result of the fallback fetch inside one detail attempt: transport error
or unsuccessful envelope throws; success yields the payload, which may still
be null. -/
def fallbackResult (v : Invoke FDCFoodItem) : Except String (Option FDCFoodItem) :=
  match v.invokeError with
  | some e => .error e
  | none =>
    match v.data with
    | none => .error "USDA Fallback Error"
    | some r =>
      if r.success then .ok r.payload
      else .error (jsOrS r.errMsg "USDA Fallback Error")

/-- One detail attempt (body of the closure getFoodDetails passes to
withRetry): optimized fetch first; on its failure the fallback fetch; a null
payload after both throws the final error. The second component counts the
provider calls the attempt made. -/
def detailAttempt (a : DetailInvokes) : Except String FDCFoodItem × Nat :=
  match optimizedFetched a.optimized with
  | some d => (.ok d, 1)
  | none =>
    match fallbackResult a.fallback with
    | .error e => (.error e, 2)
    | .ok (some d) => (.ok d, 2)
    | .ok none => (.error "Both fetch strategies failed.", 2)

/-- Stored cache row of the usda_food_raw table. -/
structure CacheRow where
  fdc_id : Int := 0
  data_type : String := ""
  raw_json : FDCFoodItem := {}
  fetched_at : Int := 0
  visual_parent : String := ""
  normalized_json : Option NormalizedFood := none

/-- Outcome of the store lookup: the query can throw, or deliver a
possibly-absent row together with an error flag. -/
inductive CacheOutcome where
  | throws
  | result (data : Option CacheRow) (hasError : Bool)

/-- Environment of one getFoodDetails request: the current time, the store
lookup outcome, and the provider invocations each retry attempt would
observe. -/
structure DetailEnv where
  now : Int
  cache : CacheOutcome
  attempts : Nat → DetailInvokes

/-- Observable outcome of one getFoodDetails request: the returned or thrown
value, the attempt numbers passed to the onRetry callback, the number of
provider calls made, and whether the fire-and-forget cache upsert was
started. -/
structure DetailOutcome where
  result : Except String NormalizedFood
  retryCalls : List Nat
  providerCalls : Nat
  upsertAttempted : Bool

/-- Network branch of getFoodDetails: the detail attempts under the retry
wrapper (3 attempts); on success the payload is normalized, the cache upsert
is started and the normalized food returned; on exhausted retries the last
error is rethrown. -/
def detailFetchPath (env : DetailEnv) : DetailOutcome :=
  let out := withRetry (fun i => detailAttempt (env.attempts i)) 3 "undefined"
  match out.1 with
  | .ok food =>
    { result := .ok (normalizeFoodItem food)
      retryCalls := out.2.1
      providerCalls := out.2.2
      upsertAttempted := true }
  | .error e =>
    { result := .error e
      retryCalls := out.2.1
      providerCalls := out.2.2
      upsertAttempted := false }

/-- The detail operation (getFoodDetails in the source): a store row with no
error and a fresh capture timestamp short-circuits to the stored normalized
payload (or, for older rows without one, to normalizing the stored raw
payload) with no provider call; every other lookup outcome proceeds to the
network branch. -/
def getFoodDetails (env : DetailEnv) : DetailOutcome :=
  match env.cache with
  | .result (some entry) false =>
    if isCacheValid env.now entry.fetched_at then
      match entry.normalized_json with
      | some nf =>
        { result := .ok nf, retryCalls := [], providerCalls := 0, upsertAttempted := false }
      | none =>
        { result := .ok (normalizeFoodItem entry.raw_json), retryCalls := [],
          providerCalls := 0, upsertAttempted := false }
    else detailFetchPath env
  | _ => detailFetchPath env

/-- A detail environment reaches the network branch when the store lookup
does not deliver an error-free row with a fresh timestamp. -/
def noFreshCacheHit (env : DetailEnv) : Prop :=
  ∀ entry, env.cache = CacheOutcome.result (some entry) false →
    isCacheValid env.now entry.fetched_at = false

/-- Spec-side description of the portion unit-label resolution: first
non-empty candidate in order, else the final fallback label. Used to compare
the code's resolution chain against the specified order. -/
def firstNonEmpty : List (Option String) → String → String
  | [], d => d
  | o :: rest, d =>
    match o with
    | some s => if s = "" then firstNonEmpty rest d else s
    | none => firstNonEmpty rest d

/-- Nonnegativity of every number carried by a nutrient entry. -/
def nutrientNonneg (n : FoodNutrient) : Prop :=
  (∀ v, n.amount = some v → 0 ≤ v) ∧ (∀ v, n.value = some v → 0 ≤ v)

/-- Detail record carrying a direct kilocalorie entry with value v and an
Atwater-specific estimation entry with value w. -/
def energyFood (v w : ℚ) : FDCFoodItem :=
  { foodNutrients :=
      [ { nutrientId := some 1008, amount := some v },
        { nutrientId := some 2048, amount := some w } ] }

/-- Tiles search-index row carrying the same two energy entries in the
search-index coding: nutrient number 208 (direct kcal) with value v and 958
(Atwater specific) with value w. -/
def energyRow (v w : ℚ) : TilesFoodDetailsRow :=
  { nutrients :=
      some
        [ { nutrientNumber := some "208", amount := some v },
          { nutrientNumber := some "958", amount := some w } ] }

/-- Record whose nutrient list holds the two energy entries in record order
specific-then-direct, to separate priority order from record order. -/
def prioFood : FDCFoodItem :=
  { foodNutrients :=
      [ { nutrientId := some 2048, amount := some 50 },
        { nutrientId := some 1008, amount := some 52 } ] }

/-- Record with a negative protein measurement. -/
def negFood : FDCFoodItem :=
  { foodNutrients := [ { nutrientId := some 1003, amount := some (-1) } ] }

/-- The portion record of the specification's resolution example. -/
def cupPortion : FoodPortion :=
  { portionDescription := some ""
    modifier := some "cup"
    measureUnit := some { name := some "whatever" } }

/-- A concrete normalized payload for the cache-hit scenario. -/
def sampleNormalized : NormalizedFood :=
  { fdcId := 171688
    description := "Apples, raw, fuji"
    dataType := "SR Legacy"
    publicationDate := "2019-04-01"
    energy_kcal := 63
    protein_g := 1 / 5
    fat_g := 18 / 100
    carbs_g := 15
    sugar_g := 13
    fiber_g := 2
    sodium_mg := 1
    visual_parent := "apples"
    category := "Fruits and Fruit Juices"
    category_code := "0900"
    portions := []
    foodNutrients := [] }

/-- A stored cache row holding the sample normalized payload, captured at
time 0. -/
def sampleCacheRow : CacheRow :=
  { fdc_id := 171688
    data_type := "SR Legacy"
    raw_json := {}
    fetched_at := 0
    visual_parent := "apples"
    normalized_json := some sampleNormalized }

/-- Invocation outcome of a transport-level failure. -/
def invokeBoom : Invoke FDCFoodItem :=
  { invokeError := some "boom" }

/-- Invocation outcome of a successful envelope carrying the given payload. -/
def invokeOkFood (d : FDCFoodItem) : Invoke FDCFoodItem :=
  { data := some { success := true, status := 200, payload := some d } }

/-- A concrete raw detail payload for the fallback scenario. -/
def sampleFood : FDCFoodItem :=
  { fdcId := 171688
    description := "Apples, raw, fuji"
    dataType := "SR Legacy"
    foodNutrients := [ { nutrientId := some 1008, amount := some 63 } ] }

/-- Detail environment of the cache-hit scenario: a fresh stored row with a
populated normalized payload, with the network in a failing state. -/
def envCacheHit : DetailEnv :=
  { now := 0
    cache := .result (some sampleCacheRow) false
    attempts := fun _ => { optimized := invokeBoom, fallback := invokeBoom } }

/-- Detail environment in which the store lookup misses and every provider
call fails at the transport level. -/
def envAllFail : DetailEnv :=
  { now := 0
    cache := .result none false
    attempts := fun _ => { optimized := invokeBoom, fallback := invokeBoom } }

/-- Detail environment in which the store lookup throws, the optimized fetch
fails at the transport level and the fallback fetch succeeds. -/
def envFallbackOk : DetailEnv :=
  { now := 0
    cache := .throws
    attempts := fun _ => { optimized := invokeBoom, fallback := invokeOkFood sampleFood } }

/-- Search invocation outcomes that fail at the transport level on every
attempt. -/
def searchAllFail : Nat → Invoke Unit :=
  fun _ => { invokeError := some "boom" }

/-- Search invocation outcome of a successful envelope carrying a payload. -/
def searchOk : Nat → Invoke Unit :=
  fun _ => { data := some { success := true, status := 200, payload := some () } }

theorem withRetry3_first_ok {E T : Type} (op : Nat → Except E T × Nat) (e₀ : E) (v : T)
    (h : (op 0).1 = .ok v) : withRetry op 3 e₀ = (.ok v, [], (op 0).2) := by
  show withRetryAux op 0 (1 + 2) e₀ = _
  simp [withRetryAux, h]

theorem withRetry3_all_error {E T : Type} (op : Nat → Except E T × Nat) (e₀ e0 e1 e2 : E)
    (h0 : (op 0).1 = .error e0) (h1 : (op 1).1 = .error e1)
    (h2 : (op 2).1 = .error e2) :
    withRetry op 3 e₀ = (.error e2, [1, 2], (op 0).2 + ((op 1).2 + (op 2).2)) := by
  show withRetryAux op 0 (1 + 2) e₀ = _
  simp [withRetryAux, h0, h1, h2]


theorem isCacheValid_shift (a b d : Int) (h : a - b = d) :
    isCacheValid a b = isCacheValid d 0 := by
  simp [isCacheValid, h]

theorem isCacheValid_days (d : ℕ) :
    isCacheValid ((d : Int) * 86400000) 0 = decide (d ≤ 30) := by
  unfold isCacheValid CACHE_TTL_DAYS
  have h1 : (d : Int) * 86400000 - 0 = (d : Int) * 86400000 := by ring
  rw [h1]
  have h2 : ((((d : Int) * 86400000).natAbs : ℚ)) / ((1000 * 60 * 60 * 24 : Int) : ℚ)
      = ((d : Int) : ℚ) := by
    rw [Int.natAbs_mul]
    push_cast
    norm_num
  simp only [h2, Int.ceil_intCast]
  rw [decide_eq_decide]
  exact_mod_cast Iff.rfl

theorem isCacheValid_now_true : isCacheValid 0 0 = true := by
  have h := isCacheValid_days 0
  norm_num at h
  exact h

/-- C6: the freshness check with its fixed 30-day window accepts an entry
captured now, accepts an entry captured exactly 30 days ago (boundary
inclusive), and rejects an entry captured 31 days ago. -/
theorem isCacheValid_window (now : Int) :
    isCacheValid now now = true ∧
    isCacheValid now (now - 30 * 86400000) = true ∧
    isCacheValid now (now - 31 * 86400000) = false := by
  have h30 := isCacheValid_days 30
  have h31 := isCacheValid_days 31
  norm_num at h30 h31
  refine ⟨?_, ?_, ?_⟩
  · rw [isCacheValid_shift now now 0 (by ring)]
    exact isCacheValid_now_true
  · rw [isCacheValid_shift now (now - 30 * 86400000) 2592000000 (by ring)]
    exact h30
  · rw [isCacheValid_shift now (now - 31 * 86400000) 2678400000 (by ring)]
    exact h31

/-- C5: a store lookup that delivers an error-free row with a fresh capture
timestamp and a populated normalized payload makes getFoodDetails return that
payload unchanged, with no provider call, no retry callback and no cache
write. -/
theorem getFoodDetails_cache_hit (env : DetailEnv) (entry : CacheRow)
    (nf : NormalizedFood)
    (hc : env.cache = CacheOutcome.result (some entry) false)
    (hfresh : isCacheValid env.now entry.fetched_at = true)
    (hnorm : entry.normalized_json = some nf) :
    getFoodDetails env =
      { result := .ok nf, retryCalls := [], providerCalls := 0,
        upsertAttempted := false } := by
  simp [getFoodDetails, hc, hfresh, hnorm]

theorem getFoodDetails_cache_hit_witness :
    envCacheHit.cache = CacheOutcome.result (some sampleCacheRow) false ∧
    isCacheValid envCacheHit.now sampleCacheRow.fetched_at = true ∧
    sampleCacheRow.normalized_json = some sampleNormalized ∧
    getFoodDetails envCacheHit =
      { result := .ok sampleNormalized, retryCalls := [], providerCalls := 0,
        upsertAttempted := false } := by
  refine ⟨rfl, isCacheValid_now_true, rfl, ?_⟩
  exact getFoodDetails_cache_hit envCacheHit sampleCacheRow sampleNormalized rfl
    isCacheValid_now_true rfl

theorem getFoodDetails_no_hit (env : DetailEnv) (h : noFreshCacheHit env) :
    getFoodDetails env = detailFetchPath env := by
  unfold getFoodDetails
  cases hc : env.cache with
  | throws => rfl
  | result data hasError =>
    cases data with
    | none => cases hasError <;> rfl
    | some entry =>
      cases hasError with
      | true => rfl
      | false =>
        have hv := h entry hc
        simp [hv]

/-- C3: when both the optimized and the fallback fetch fail on every one of
the 3 retry attempts, getFoodDetails throws the error of the last attempt,
and the retry progress callback is invoked exactly retries minus 1 = 2
times, with attempt numbers 1 and 2 (before each retry, not before the first
attempt and not after the final failure). -/
theorem getFoodDetails_all_retries_fail (env : DetailEnv) (es : Nat → String)
    (hnc : noFreshCacheHit env)
    (hfail : ∀ i, i < 3 → optimizedFetched (env.attempts i).optimized = none ∧
      fallbackResult (env.attempts i).fallback = .error (es i)) :
    (getFoodDetails env).result = .error (es 2) ∧
    (getFoodDetails env).retryCalls = [1, 2] := by
  have hop : ∀ i, i < 3 → (detailAttempt (env.attempts i)).1 = .error (es i) := by
    intro i hi
    obtain ⟨h1, h2⟩ := hfail i hi
    simp [detailAttempt, h1, h2]
  rw [getFoodDetails_no_hit env hnc]
  unfold detailFetchPath
  rw [withRetry3_all_error _ "undefined" (es 0) (es 1) (es 2)
    (hop 0 (by norm_num)) (hop 1 (by norm_num)) (hop 2 (by norm_num))]
  exact ⟨rfl, rfl⟩

theorem getFoodDetails_all_retries_fail_witness :
    noFreshCacheHit envAllFail ∧
    (getFoodDetails envAllFail).result = .error "boom" ∧
    (getFoodDetails envAllFail).retryCalls = [1, 2] := by
  have hnc : noFreshCacheHit envAllFail := by
    intro entry h
    simp [envAllFail] at h
  have h := getFoodDetails_all_retries_fail envAllFail (fun _ => "boom") hnc
    (fun i _ => ⟨rfl, rfl⟩)
  exact ⟨hnc, h.1, h.2⟩

/-- C4: when the store gives no fresh hit, the optimized fetch of the first
attempt fails and its fallback fetch succeeds with a payload, getFoodDetails
does not throw: it returns the fallback payload passed through
normalizeFoodItem, starts the cache upsert, makes 2 provider calls and never
invokes the retry callback; the optimized-fetch error is not surfaced. -/
theorem getFoodDetails_fallback_success (env : DetailEnv) (d : FDCFoodItem)
    (hnc : noFreshCacheHit env)
    (hopt : optimizedFetched (env.attempts 0).optimized = none)
    (hfb : fallbackResult (env.attempts 0).fallback = .ok (some d)) :
    getFoodDetails env =
      { result := .ok (normalizeFoodItem d), retryCalls := [],
        providerCalls := 2, upsertAttempted := true } := by
  have hop : (detailAttempt (env.attempts 0)).1 = .ok d := by
    simp [detailAttempt, hopt, hfb]
  have hcost : (detailAttempt (env.attempts 0)).2 = 2 := by
    simp [detailAttempt, hopt, hfb]
  rw [getFoodDetails_no_hit env hnc]
  unfold detailFetchPath
  rw [withRetry3_first_ok _ "undefined" d hop]
  simp [hcost]

theorem getFoodDetails_fallback_success_witness :
    noFreshCacheHit envFallbackOk ∧
    getFoodDetails envFallbackOk =
      { result := .ok (normalizeFoodItem sampleFood), retryCalls := [],
        providerCalls := 2, upsertAttempted := true } := by
  have hnc : noFreshCacheHit envFallbackOk := by
    intro entry h
    simp [envFallbackOk] at h
  exact ⟨hnc, getFoodDetails_fallback_success envFallbackOk sampleFood hnc rfl rfl⟩

/-- C9 as stated is false on the code: with the provider failing on every
attempt, searchFoods makes 3 provider calls, not exactly one. -/
theorem searchFoods_three_calls_on_failure :
    (searchFoods searchAllFail).2.2 = 3 ∧ (3 : Nat) ≠ 1 := by
  constructor
  · rfl
  · norm_num

/-- C9 amended: searchFoods performs no cache read or write and no fallback
tier; it repeats the one search request under the retry wrapper with 3
attempts. When the first attempt succeeds it makes exactly one provider call
and returns that payload; when every attempt fails it makes 3 provider
calls, invokes the retry callback with attempt numbers 1 and 2, and
propagates the last error to the caller. -/
theorem searchFoods_retry_behavior {α : Type} (attempts : Nat → Invoke α)
    (p : Option α) (es : Nat → String) :
    (searchAttempt (attempts 0) = .ok p →
      searchFoods attempts = (.ok p, [], 1)) ∧
    ((∀ i, i < 3 → searchAttempt (attempts i) = .error (es i)) →
      searchFoods attempts = (.error (es 2), [1, 2], 3)) := by
  constructor
  · intro h
    unfold searchFoods
    rw [withRetry3_first_ok (fun i => (searchAttempt (attempts i), 1)) "undefined" p h]
  · intro h
    unfold searchFoods
    rw [withRetry3_all_error (fun i => (searchAttempt (attempts i), 1)) "undefined"
      (es 0) (es 1) (es 2) (h 0 (by norm_num)) (h 1 (by norm_num)) (h 2 (by norm_num))]
    norm_num

theorem searchFoods_retry_behavior_witness :
    searchFoods searchOk = (.ok (some ()), [], 1) ∧
    searchFoods searchAllFail = (.error "boom", [1, 2], 3) := by
  have h1 := (searchFoods_retry_behavior searchOk (some ()) (fun _ => "boom")).1 rfl
  have h2 := (searchFoods_retry_behavior searchAllFail (some ())
    (fun _ => "boom")).2 (fun i _ => rfl)
  exact ⟨h1, h2⟩

/-- C10: searchTilesFood returns the empty list without any remote call for
an empty or whitespace-only query; for a non-blank query it makes the call,
throws on an RPC error (with the error message wrapped), and maps a null
payload to the empty list rather than an error. -/
theorem searchTilesFood_contract (lc q : String) (lim : Int)
    (rpc : RpcOutcome (List TilesSearchRow)) (m : String) :
    ((q = "" ∨ jsTrim q = "") →
      searchTilesFood lc q lim rpc = (.ok [], false)) ∧
    (jsTrim q ≠ "" → rpc = .failure m →
      searchTilesFood lc q lim rpc = (.error ("Tiles Search Error: " ++ m), true)) ∧
    (jsTrim q ≠ "" → rpc = .success none →
      searchTilesFood lc q lim rpc = (.ok [], true)) := by
  have hblank : q = "" → jsTrim q = "" := by
    intro hq
    rw [hq]
    rfl
  refine ⟨?_, ?_, ?_⟩
  · intro h
    unfold searchTilesFood
    rw [if_pos h]
  · intro hne hr
    have hcond : ¬(q = "" ∨ jsTrim q = "") := by
      rintro (hq | hq)
      · exact hne (hblank hq)
      · exact hne hq
    unfold searchTilesFood
    rw [if_neg hcond, hr]
  · intro hne hr
    have hcond : ¬(q = "" ∨ jsTrim q = "") := by
      rintro (hq | hq)
      · exact hne (hblank hq)
      · exact hne hq
    unfold searchTilesFood
    rw [if_neg hcond, hr]

theorem searchTilesFood_contract_witness :
    searchTilesFood "de" "   " 20 (RpcOutcome.success (some [{}])) = (.ok [], false) ∧
    searchTilesFood "de" "apple" 20 (RpcOutcome.failure "boom") =
      (.error ("Tiles Search Error: " ++ "boom"), true) ∧
    searchTilesFood "de" "apple" 20 (RpcOutcome.success none) = (.ok [], true) := by
  refine ⟨?_, ?_, ?_⟩
  · exact (searchTilesFood_contract "de" "   " 20 (RpcOutcome.success (some [{}]))
      "boom").1 (Or.inr (by decide))
  · exact ((searchTilesFood_contract "de" "apple" 20 (RpcOutcome.failure "boom")
      "boom").2).1 (by decide) rfl
  · exact ((searchTilesFood_contract "de" "apple" 20 (RpcOutcome.success none)
      "boom").2).2 (by decide) rfl

theorem firstNonEmpty_cons (o : Option String) (rest : List (Option String))
    (d : String) : firstNonEmpty (o :: rest) d = jsOrS o (firstNonEmpty rest d) := by
  cases o with
  | none => rfl
  | some s =>
    by_cases hs : s = "" <;> simp [firstNonEmpty, jsOrS, hs]

theorem jsOrS_ne_empty (o : Option String) (d : String) (hd : d ≠ "") :
    jsOrS o d ≠ "" := by
  cases o with
  | none => simpa [jsOrS] using hd
  | some s =>
    by_cases hs : s = ""
    · simpa [jsOrS, hs] using hd
    · simpa [jsOrS, hs] using hs

/-- C7: the normalized portion's unit description is the first non-empty
candidate in the order portion description text, modifier label, nested
measurement-unit name, literal fallback label; it is therefore never the
empty string; and the record with empty portion description, modifier cup
and measure-unit name whatever resolves to cup. -/
theorem normalizeFoodPortion_unit_resolution (p : FoodPortion) :
    (normalizeFoodPortion p).unitDescription =
      firstNonEmpty
        [p.portionDescription, p.modifier, p.measureUnit.bind MeasureUnit.name]
        "Einheit" ∧
    (normalizeFoodPortion p).unitDescription ≠ "" ∧
    (normalizeFoodPortion cupPortion).unitDescription = "cup" := by
  refine ⟨?_, ?_, rfl⟩
  · rw [firstNonEmpty_cons, firstNonEmpty_cons, firstNonEmpty_cons]
    rfl
  · exact jsOrS_ne_empty _ _ (jsOrS_ne_empty _ _ (jsOrS_ne_empty _ _ (by decide)))

theorem getValueList_zero_of_no_match (l : List FoodNutrient) (ids : List Int)
    (h : ∀ j ∈ ids, findNutrient l j = none) : getValueList l ids = 0 := by
  induction ids with
  | nil => rfl
  | cons a rest ih =>
    have ha := h a (by simp)
    have hrest : ∀ j ∈ rest, findNutrient l j = none := fun j hj => h j (by simp [hj])
    simp [getValueList, ha]
    exact ih hrest

theorem getValueList_first_match (l : List FoodNutrient) (pre post : List Int)
    (tid : Int) (e : FoodNutrient)
    (hpre : ∀ j ∈ pre, findNutrient l j = none)
    (he : findNutrient l tid = some e) :
    getValueList l (pre ++ tid :: post) = matchedValue e := by
  induction pre with
  | nil => simp [getValueList, he]
  | cons a rest ih =>
    have ha := hpre a (by simp)
    have hrest : ∀ j ∈ rest, findNutrient l j = none := fun j hj => hpre j (by simp [hj])
    simp [getValueList, ha]
    exact ih hrest

/-- C2: for an ordered candidate list, if no candidate matches any nutrient
entry (by flat nutrientId or nested nutrient id) the resolver returns
exactly 0; and when the candidates up to some position have no match while
that position's candidate matches entry e, the resolver returns the value of
e (its rounded quantity), i.e. the earliest matching candidate in priority
order wins, not the first matching entry in record order. -/
theorem getValue_priority_and_default (food : FDCFoodItem) (ids pre post : List Int)
    (tid : Int) (e : FoodNutrient) :
    ((∀ j ∈ ids, findNutrient food.foodNutrients j = none) →
      getValue food (.arr ids) = 0) ∧
    (ids = pre ++ tid :: post →
      (∀ j ∈ pre, findNutrient food.foodNutrients j = none) →
      findNutrient food.foodNutrients tid = some e →
      getValue food (.arr ids) = matchedValue e) := by
  constructor
  · intro h
    exact getValueList_zero_of_no_match food.foodNutrients ids h
  · intro hids hpre he
    rw [hids]
    exact getValueList_first_match food.foodNutrients pre post tid e hpre he

theorem getValue_priority_and_default_witness :
    getValue prioFood (.arr [1008, 2048, 2047]) = 52 ∧
    getValue prioFood (.arr [7777, 8888]) = 0 := by
  have h1 := (getValue_priority_and_default prioFood [1008, 2048, 2047] []
    [2048, 2047] 1008 { nutrientId := some 1008, amount := some 52 }).2
    rfl (by simp) rfl
  have h2 := (getValue_priority_and_default prioFood [7777, 8888] [] [] 0
    { }).1 (by intro j hj; fin_cases hj <;> rfl)
  refine ⟨?_, h2⟩
  rw [h1]
  unfold matchedValue nutrientRawVal round2 jsRound
  norm_num

/-- C1 as stated is false on the code: for a record carrying both a direct
kilocalorie entry of 52 and an Atwater-specific estimation entry of 50, the
search-index entry point resolves energy to 50, not to the direct value
52. -/
theorem tiles_energy_prefers_specific_estimation :
    (normalizeTilesFoodDetailsRow (energyRow 52 50)).energy_kcal = 50 ∧
    ((50 : ℚ) ≠ 52) := by
  constructor
  · rfl
  · norm_num

/-- C1 amended: the detail entry point normalizeFoodItem resolves energy
direct-kilocalorie-first (ids 1008, then 2048, then 2047), so a record with
direct value v and specific-estimation value w normalizes to the rounded v;
the search-index entry point normalizeTilesFoodDetailsRow resolves energy
specific-estimation-first (numbers 958, then 957, then 208), so the same
record normalizes to w. -/
theorem energy_priority_by_entry_point (v w : ℚ) (hv : v ≠ 0) (hw : w ≠ 0) :
    (normalizeFoodItem (energyFood v w)).energy_kcal = round2 v ∧
    (normalizeTilesFoodDetailsRow (energyRow v w)).energy_kcal = w := by
  constructor
  · simp [normalizeFoodItem, getValue, PossibleIds.toList, getValueList,
      findNutrient, energyFood, nutrientMatches, matchedValue, nutrientRawVal,
      NUTRIENT_IDS.ENERGY_KCAL, List.find?, hv]
  · simp [normalizeTilesFoodDetailsRow, energyRow, tilesEnergy, getVal,
      mapIdToNumber, getValById, mapTilesNutrient, jsOrQ, List.find?,
      NUTRIENT_IDS.ENERGY_ATWATER_SPECIFIC, NUTRIENT_IDS.ENERGY_ATWATER_GENERAL,
      NUTRIENT_IDS.ENERGY_KCAL, hw]

theorem energy_priority_by_entry_point_witness :
    (52 : ℚ) ≠ 0 ∧ (50 : ℚ) ≠ 0 ∧
    (normalizeFoodItem (energyFood 52 50)).energy_kcal = 52 ∧
    (normalizeTilesFoodDetailsRow (energyRow 52 50)).energy_kcal = 50 := by
  have h := energy_priority_by_entry_point 52 50 (by norm_num) (by norm_num)
  refine ⟨by norm_num, by norm_num, ?_, h.2⟩
  rw [h.1]
  unfold round2 jsRound
  norm_num

theorem round2_nonneg (q : ℚ) (h : 0 ≤ q) : 0 ≤ round2 q := by
  unfold round2 jsRound
  have h1 : (0 : ℚ) ≤ q * 100 + 1 / 2 := by nlinarith
  have h2 : (0 : ℤ) ≤ ⌊q * 100 + 1 / 2⌋ := by
    rw [Int.le_floor]
    exact_mod_cast h1
  have h3 : (0 : ℚ) ≤ ((⌊q * 100 + 1 / 2⌋ : ℤ) : ℚ) := by exact_mod_cast h2
  exact div_nonneg h3 (by norm_num)

theorem matchedValue_nonneg (n : FoodNutrient) (h : nutrientNonneg n) :
    0 ≤ matchedValue n := by
  have hval : ∀ v, nutrientRawVal n = some v → 0 ≤ v := by
    intro v hr
    unfold nutrientRawVal at hr
    cases ha : n.amount with
    | some a =>
      rw [ha] at hr
      injection hr with h2
      exact h2 ▸ h.1 a ha
    | none =>
      rw [ha] at hr
      exact h.2 v hr
  unfold matchedValue
  cases hr : nutrientRawVal n with
  | none => norm_num
  | some v =>
    have hv := hval v hr
    by_cases hz : v = 0
    · simp [hz]
    · simp [hz]
      exact round2_nonneg v hv

theorem getValueList_nonneg (l : List FoodNutrient) (ids : List Int)
    (h : ∀ n ∈ l, nutrientNonneg n) : 0 ≤ getValueList l ids := by
  induction ids with
  | nil => norm_num [getValueList]
  | cons a rest ih =>
    cases hf : findNutrient l a with
    | none => simpa [getValueList, hf] using ih
    | some n =>
      have hmem : n ∈ l := by
        unfold findNutrient at hf
        exact List.mem_of_find?_eq_some hf
      simpa [getValueList, hf] using matchedValue_nonneg n (h n hmem)

theorem jsOrQ_nonneg (o : Option ℚ) (d : ℚ) (hd : 0 ≤ d)
    (ho : ∀ v, o = some v → 0 ≤ v) : 0 ≤ jsOrQ o d := by
  cases o with
  | none => simpa [jsOrQ] using hd
  | some v =>
    by_cases hz : v = 0
    · simpa [jsOrQ, hz] using hd
    · simpa [jsOrQ, hz] using ho v rfl

theorem getValById_nonneg (l : List FoodNutrient) (num : Int)
    (h : ∀ n ∈ l, ∀ v, n.amount = some v → 0 ≤ v) : 0 ≤ getValById l num := by
  unfold getValById
  cases hf : l.find? (fun n => n.nutrientId = some num) with
  | none => norm_num
  | some found =>
    have hmem := List.mem_of_find?_eq_some hf
    simp only [hf]
    exact jsOrQ_nonneg _ _ (le_refl 0) (h found hmem)

theorem getVal_nonneg (l : List FoodNutrient) (num : Int)
    (h : ∀ n ∈ l, ∀ v, n.amount = some v → 0 ≤ v) : 0 ≤ getVal l num := by
  unfold getVal
  cases hm : mapIdToNumber num with
  | none =>
    simp only [hm]
    exact getValById_nonneg l num h
  | some t =>
    cases hf : l.find? (fun n => n.nutrientNumber = some t) with
    | none =>
      simp only [hm, hf]
      exact getValById_nonneg l num h
    | some found =>
      have hmem := List.mem_of_find?_eq_some hf
      simp only [hm, hf]
      exact jsOrQ_nonneg _ _ (le_refl 0) (h found hmem)

theorem tilesEnergy_nonneg (l : List FoodNutrient)
    (h : ∀ n ∈ l, ∀ v, n.amount = some v → 0 ≤ v) : 0 ≤ tilesEnergy l := by
  simp only [tilesEnergy]
  by_cases h1 : getVal l NUTRIENT_IDS.ENERGY_ATWATER_SPECIFIC = 0
  · rw [if_pos h1]
    by_cases h2 : getVal l NUTRIENT_IDS.ENERGY_ATWATER_GENERAL = 0
    · rw [if_pos h2]
      exact getVal_nonneg l _ h
    · rw [if_neg h2]
      exact getVal_nonneg l _ h
  · rw [if_neg h1]
    exact getVal_nonneg l _ h

theorem mapped_amount_nonneg (row : TilesFoodDetailsRow)
    (hr : ∀ n ∈ row.nutrients.getD [], ∀ v, TilesNutrient.amount n = some v → 0 ≤ v) :
    ∀ n ∈ (row.nutrients.getD []).map mapTilesNutrient,
      ∀ v, FoodNutrient.amount n = some v → 0 ≤ v := by
  intro n hn v hv
  obtain ⟨raw, hraw, rfl⟩ := List.mem_map.mp hn
  exact hr raw hraw v hv

/-- C8 as stated is false on the code: a record carrying a negative protein
measurement normalizes to a negative protein_g, so the macro fields are not
nonnegative for every input record. -/
theorem normalizeFoodItem_negative_macro :
    (normalizeFoodItem negFood).protein_g = -1 ∧
    ¬(0 ≤ (normalizeFoodItem negFood).protein_g) := by
  have h : (normalizeFoodItem negFood).protein_g = -1 := by
    show getValueList _ _ = -1
    simp only [negFood, getValueList, findNutrient, List.find?, nutrientMatches,
      NUTRIENT_IDS.PROTEIN, matchedValue, nutrientRawVal]
    norm_num [round2, jsRound]
  refine ⟨h, ?_⟩
  rw [h]
  norm_num

/-- C8 amended: every macro field of both normalization entry points is a
total rational value, never absent, and it is nonnegative whenever every
quantity carried by the input's nutrient entries is nonnegative; a record
with no matching entries yields 0 (the resolver's default), but an upstream
negative quantity is passed through. -/
theorem macro_fields_nonneg (food : FDCFoodItem) (row : TilesFoodDetailsRow)
    (hf : ∀ n ∈ food.foodNutrients, nutrientNonneg n)
    (hr : ∀ n ∈ row.nutrients.getD [], ∀ v, TilesNutrient.amount n = some v → 0 ≤ v) :
    (0 ≤ (normalizeFoodItem food).energy_kcal ∧
     0 ≤ (normalizeFoodItem food).protein_g ∧
     0 ≤ (normalizeFoodItem food).fat_g ∧
     0 ≤ (normalizeFoodItem food).carbs_g ∧
     0 ≤ (normalizeFoodItem food).sugar_g ∧
     0 ≤ (normalizeFoodItem food).fiber_g ∧
     0 ≤ (normalizeFoodItem food).sodium_mg) ∧
    (0 ≤ (normalizeTilesFoodDetailsRow row).energy_kcal ∧
     0 ≤ (normalizeTilesFoodDetailsRow row).protein_g ∧
     0 ≤ (normalizeTilesFoodDetailsRow row).fat_g ∧
     0 ≤ (normalizeTilesFoodDetailsRow row).carbs_g ∧
     0 ≤ (normalizeTilesFoodDetailsRow row).sugar_g ∧
     0 ≤ (normalizeTilesFoodDetailsRow row).fiber_g ∧
     0 ≤ (normalizeTilesFoodDetailsRow row).sodium_mg) := by
  have hm := mapped_amount_nonneg row hr
  constructor
  · exact ⟨getValueList_nonneg _ _ hf, getValueList_nonneg _ _ hf,
      getValueList_nonneg _ _ hf, getValueList_nonneg _ _ hf,
      getValueList_nonneg _ _ hf, getValueList_nonneg _ _ hf,
      getValueList_nonneg _ _ hf⟩
  · exact ⟨tilesEnergy_nonneg _ hm, getVal_nonneg _ _ hm, getVal_nonneg _ _ hm,
      getVal_nonneg _ _ hm, getVal_nonneg _ _ hm, getVal_nonneg _ _ hm,
      getVal_nonneg _ _ hm⟩

theorem macro_fields_nonneg_witness :
    0 ≤ (normalizeFoodItem {}).energy_kcal ∧
    0 ≤ (normalizeTilesFoodDetailsRow {}).energy_kcal := by
  have h := macro_fields_nonneg {} {} (by intro n hn; simp at hn)
    (by intro n hn; simp at hn)
  exact ⟨h.1.1, h.2.1⟩

theorem isCacheValid_window_witness :
    isCacheValid 0 0 = true ∧
    isCacheValid 0 (0 - 30 * 86400000) = true ∧
    isCacheValid 0 (0 - 31 * 86400000) = false := by
  have h := isCacheValid_window 0
  exact ⟨h.1, h.2.1, h.2.2⟩

theorem normalizeFoodPortion_unit_resolution_witness :
    (normalizeFoodPortion cupPortion).unitDescription = "cup" ∧
    (normalizeFoodPortion cupPortion).unitDescription ≠ "" := by
  have h := normalizeFoodPortion_unit_resolution cupPortion
  exact ⟨h.2.2, h.2.1⟩
